import Mathlib

/-!
Verification of the decode/update/coercion core of a typed client layer
(`google/generativeai/types/model_types.py` and
`google/generativeai/types/retriever_types.py`).

Shallow embedding conventions:
* Python `dict` literals are modelled as ordered entry lists; a lookup built by
  `pydict_get` folds over the entries so that a later duplicate key overwrites
  an earlier one, exactly as in a Python dict literal.
* The protobuf enums (`glm.Condition.Operator`, `glm.Chunk.State`,
  `protos.TunedModel.State`) are `enum.IntEnum` subclasses, so as dict keys an
  enum member and its integer wire value are the *same* key.  Dict keys are
  therefore modelled by `PyKey` with enum keys encoded as their wire integer.
* A raised Python exception is modelled as `Except.error` / `Option.none`.
* Binary floating point is not modelled; the one numeric computation
  (`_fix_microseconds`) is modelled with exact integer arithmetic and
  round-half-to-even (Python's `round`).
-/

deriving instance DecidableEq for Except

/-- Wire enum `glm.Condition.Operator` (values 0..7 as in the protocol). -/
inductive Operator where
  | OPERATOR_UNSPECIFIED
  | LESS
  | LESS_EQUAL
  | EQUAL
  | GREATER_EQUAL
  | NOT_EQUAL
  | INCLUDES
  | EXCLUDES
deriving DecidableEq, Repr

/-- Integer wire value of an `Operator` (IntEnum value). -/
def Operator.wire : Operator → Int
  | .OPERATOR_UNSPECIFIED => 0
  | .LESS => 1
  | .LESS_EQUAL => 2
  | .EQUAL => 3
  | .GREATER_EQUAL => 4
  | .NOT_EQUAL => 5
  | .INCLUDES => 6
  | .EXCLUDES => 7

/-- Wire enum `glm.Chunk.State` (named `State` in retriever_types.py);
wire values 0, 1, 2, 10 as used by the `_STATE` table. -/
inductive ChunkState where
  | STATE_UNSPECIFIED
  | STATE_PENDING_PROCESSING
  | STATE_ACTIVE
  | STATE_FAILED
deriving DecidableEq, Repr

/-- Integer wire value of a `ChunkState` (IntEnum value). -/
def ChunkState.wire : ChunkState → Int
  | .STATE_UNSPECIFIED => 0
  | .STATE_PENDING_PROCESSING => 1
  | .STATE_ACTIVE => 2
  | .STATE_FAILED => 10

/-- Wire enum `protos.TunedModel.State` (wire values 0..3). -/
inductive TunedModelState where
  | STATE_UNSPECIFIED
  | CREATING
  | ACTIVE
  | FAILED
deriving DecidableEq, Repr

/-- Integer wire value of a `TunedModelState` (IntEnum value). -/
def TunedModelState.wire : TunedModelState → Int
  | .STATE_UNSPECIFIED => 0
  | .CREATING => 1
  | .ACTIVE => 2
  | .FAILED => 3

/-- A Python dict key as used by the three coercion tables: `None`, an int
(an IntEnum member hashes and compares equal to its integer value, so enum
keys are encoded as their wire integer), or a string. -/
inductive PyKey where
  | none
  | int (n : Int)
  | str (s : String)
deriving DecidableEq, Repr

/-- Lookup in a Python dict literal given as an ordered entry list: fold the
entries in order, a later entry with an equal key overwriting an earlier one
(Python dict-literal semantics), then return the value stored for `k`
(`Option.none` models a `KeyError`). -/
def pydict_get {α : Type} (entries : List (PyKey × α)) (k : PyKey) : Option α :=
  entries.foldl (fun acc e => if e.1 = k then some e.2 else acc) Option.none

/-- The `_OPERATOR` table of retriever_types.py, entry for entry in source
order.  Enum keys are written as their wire integer (IntEnum key semantics).
Note the source literally repeats the integer key `6` in the `EXCLUDES` block
(`6: Operator.EXCLUDES`), which overwrites the three earlier entries for
key 6 (`Operator.INCLUDES`, `6`). -/
def _OPERATOR : List (PyKey × Operator) :=
  [ (.int 0, .OPERATOR_UNSPECIFIED),          -- Operator.OPERATOR_UNSPECIFIED
    (.int 0, .OPERATOR_UNSPECIFIED),          -- 0
    (.str "operator_unspecified", .OPERATOR_UNSPECIFIED),
    (.str "unspecified", .OPERATOR_UNSPECIFIED),
    (.int 1, .LESS),                          -- Operator.LESS
    (.int 1, .LESS),                          -- 1
    (.str "operator_less", .LESS),
    (.str "less", .LESS),
    (.str "<", .LESS),
    (.int 2, .LESS_EQUAL),                    -- Operator.LESS_EQUAL
    (.int 2, .LESS_EQUAL),                    -- 2
    (.str "operator_less_equal", .LESS_EQUAL),
    (.str "less_equal", .LESS_EQUAL),
    (.str "<=", .LESS_EQUAL),
    (.int 3, .EQUAL),                         -- Operator.EQUAL
    (.int 3, .EQUAL),                         -- 3
    (.str "operator_equal", .EQUAL),
    (.str "equal", .EQUAL),
    (.str "==", .EQUAL),
    (.int 4, .GREATER_EQUAL),                 -- Operator.GREATER_EQUAL
    (.int 4, .GREATER_EQUAL),                 -- 4
    (.str "operator_greater_equal", .GREATER_EQUAL),
    (.str "greater_equal", .GREATER_EQUAL),
    (.int 5, .NOT_EQUAL),                     -- Operator.NOT_EQUAL
    (.int 5, .NOT_EQUAL),                     -- 5
    (.str "operator_not_equal", .NOT_EQUAL),
    (.str "not_equal", .NOT_EQUAL),
    (.str "!=", .NOT_EQUAL),
    (.int 6, .INCLUDES),                      -- Operator.INCLUDES
    (.int 6, .INCLUDES),                      -- 6
    (.str "operator_includes", .INCLUDES),
    (.str "includes", .INCLUDES),
    (.int 7, .EXCLUDES),                      -- Operator.EXCLUDES
    (.int 6, .EXCLUDES),                      -- 6   (sic: duplicate key 6)
    (.str "operator_excludes", .EXCLUDES),
    (.str "excludes", .EXCLUDES),
    (.str "not in", .EXCLUDES) ]

/-- The `_STATE` table of retriever_types.py, in source order (note the source
spells the alias "state_unspecifed" with the typo, and there is no `None`
key). -/
def _STATE : List (PyKey × ChunkState) :=
  [ (.int 0, .STATE_UNSPECIFIED),             -- State.STATE_UNSPECIFIED
    (.int 0, .STATE_UNSPECIFIED),             -- 0
    (.str "state_unspecifed", .STATE_UNSPECIFIED),
    (.str "unspecified", .STATE_UNSPECIFIED),
    (.int 1, .STATE_PENDING_PROCESSING),      -- State.STATE_PENDING_PROCESSING
    (.int 1, .STATE_PENDING_PROCESSING),      -- 1
    (.str "pending_processing", .STATE_PENDING_PROCESSING),
    (.str "pending", .STATE_PENDING_PROCESSING),
    (.int 2, .STATE_ACTIVE),                  -- State.STATE_ACTIVE
    (.int 2, .STATE_ACTIVE),                  -- 2
    (.str "state_active", .STATE_ACTIVE),
    (.str "active", .STATE_ACTIVE),
    (.int 10, .STATE_FAILED),                 -- State.STATE_FAILED
    (.int 10, .STATE_FAILED),                 -- 10
    (.str "state_failed", .STATE_FAILED),
    (.str "failed", .STATE_FAILED) ]

/-- The `_TUNED_MODEL_STATES` table of model_types.py, in source order.
It is the only table with a `None` key. -/
def _TUNED_MODEL_STATES : List (PyKey × TunedModelState) :=
  [ (.int 2, .ACTIVE),                        -- TunedModelState.ACTIVE
    (.int 2, .ACTIVE),                        -- int(TunedModelState.ACTIVE)
    (.str "active", .ACTIVE),
    (.int 1, .CREATING),                      -- TunedModelState.CREATING
    (.int 1, .CREATING),                      -- int(TunedModelState.CREATING)
    (.str "creating", .CREATING),
    (.int 3, .FAILED),                        -- TunedModelState.FAILED
    (.int 3, .FAILED),                        -- int(TunedModelState.FAILED)
    (.str "failed", .FAILED),
    (.int 0, .STATE_UNSPECIFIED),             -- TunedModelState.STATE_UNSPECIFIED
    (.int 0, .STATE_UNSPECIFIED),             -- int(...)
    (.str "state_unspecified", .STATE_UNSPECIFIED),
    (.str "unspecified", .STATE_UNSPECIFIED),
    (.none, .STATE_UNSPECIFIED) ]             -- None

/-- ASCII case mapping of Python `str.lower` (all aliases in the tables and
all inputs considered here are ASCII, where `str.lower` agrees with the
ASCII mapping). -/
def pyLowerChar (c : Char) : Char :=
  if 'A' ≤ c ∧ c ≤ 'Z' then Char.ofNat (c.toNat + 32) else c

/-- Python `s.lower()` on an ASCII string. -/
def pyLower (s : String) : String :=
  String.mk (s.data.map pyLowerChar)

/-- Runtime argument of `to_operator` (`OperatorOptions = Union[str, int,
Operator]`). -/
inductive OperatorInput where
  | str (s : String)
  | int (n : Int)
  | enum (o : Operator)
deriving DecidableEq, Repr

/-- Runtime argument of `to_state` (`StateOptions = Union[str, int, State]`;
`None` can still arrive at runtime and then misses the table). -/
inductive ChunkStateInput where
  | none
  | str (s : String)
  | int (n : Int)
  | enum (st : ChunkState)
deriving DecidableEq, Repr

/-- Runtime argument of `to_tuned_model_state`
(`TunedModelStateOptions = Union[None, str, int, TunedModelState]`). -/
inductive TunedModelStateInput where
  | none
  | str (s : String)
  | int (n : Int)
  | enum (st : TunedModelState)
deriving DecidableEq, Repr

/-- `to_operator` of retriever_types.py: lower-case a string input, then look
it up in `_OPERATOR` (a miss is a raised `KeyError`, modelled as
`Option.none`). -/
def to_operator (x : OperatorInput) : Option Operator :=
  match x with
  | .str s => pydict_get _OPERATOR (.str (pyLower s))
  | .int n => pydict_get _OPERATOR (.int n)
  | .enum o => pydict_get _OPERATOR (.int o.wire)

/-- `to_state` of retriever_types.py: lower-case a string input, then look it
up in `_STATE` (a miss is a raised `KeyError`, modelled as `Option.none`). -/
def to_state (x : ChunkStateInput) : Option ChunkState :=
  match x with
  | .none => pydict_get _STATE .none
  | .str s => pydict_get _STATE (.str (pyLower s))
  | .int n => pydict_get _STATE (.int n)
  | .enum st => pydict_get _STATE (.int st.wire)

/-- `to_tuned_model_state` of model_types.py: lower-case a string input, then
look it up in `_TUNED_MODEL_STATES` (a miss is a raised `KeyError`, modelled
as `Option.none`). -/
def to_tuned_model_state (x : TunedModelStateInput) : Option TunedModelState :=
  match x with
  | .none => pydict_get _TUNED_MODEL_STATES .none
  | .str s => pydict_get _TUNED_MODEL_STATES (.str (pyLower s))
  | .int n => pydict_get _TUNED_MODEL_STATES (.int n)
  | .enum st => pydict_get _TUNED_MODEL_STATES (.int st.wire)

example : to_operator (.enum .INCLUDES) = some .EXCLUDES := by decide
example : to_operator (.str "includes") = some .INCLUDES := by decide
example : to_tuned_model_state .none = some .STATE_UNSPECIFIED := by decide
example : to_tuned_model_state (.str "bogus") = Option.none := by decide
example : to_state .none = Option.none := by decide

/-! ## Time decoding (`_fix_microseconds`, `idecode_time` of model_types.py) -/

/-- Numeric value of an ASCII digit run. -/
def digitsToNat (ds : List Char) : Nat :=
  ds.foldl (fun a c => a * 10 + (c.toNat - 48)) 0

/-- Round `num / den` to the nearest integer, ties to even: the behaviour of
Python's built-in `round` on an exact value.  The source computes
`round(float(".ddd") * 1e6)` in binary floating point; we model the
computation exactly (for inputs with at most seven fractional digits, as
here, the float detour changes the result only on exact ties, and the claims
are evaluated away from ties). -/
def roundHalfEvenDiv (num den : Nat) : Nat :=
  let q := num / den
  let r := num % den
  if 2 * r < den then q
  else if den < 2 * r then q + 1
  else if q % 2 = 0 then q else q + 1

/-- The ASCII digit character for `n < 10`. -/
def digitChar (n : Nat) : Char :=
  Char.ofNat (48 + n)

/-- Decimal digit characters of `n` (fuel-based so it is structural). -/
def natToDigitsAux : Nat → Nat → List Char
  | 0, _ => []
  | fuel + 1, n =>
    if n < 10 then [digitChar n]
    else natToDigitsAux fuel (n / 10) ++ [digitChar (n % 10)]

/-- Decimal digit characters of `n`. -/
def natToDigits (n : Nat) : List Char :=
  natToDigitsAux (n + 1) n

/-- `_fix_microseconds` of model_types.py applied to the digits of a matched
`\.\d+` run: the fraction `0.<ds>` is rescaled to microseconds by
multiplying with `1e6` and rounding, then formatted as `f".{...:06d}"`
(zero-padded to at least six digits). -/
def _fix_microseconds (ds : List Char) : List Char :=
  let v := roundHalfEvenDiv (digitsToNat ds * 1000000) (10 ^ ds.length)
  let rendered := natToDigits v
  '.' :: (List.replicate (6 - rendered.length) '0' ++ rendered)

/-- Longest digit-run split (`List.span Char.isDigit`, written structurally). -/
def spanDigits : List Char → List Char × List Char
  | [] => ([], [])
  | c :: rest =>
    if c.isDigit then
      let (ds, r) := spanDigits rest
      (c :: ds, r)
    else ([], c :: rest)

/-- `re.sub(r"\.\d+", _fix_microseconds, time)`: replace every maximal
`.<digits>` run by its `_fix_microseconds` rewrite.  Written with a
character-count fuel so the recursion is structural (each step consumes at
least one character, so `l.length` fuel is always sufficient). -/
def applyFixMicrosecondsAux : Nat → List Char → List Char
  | 0, l => l
  | _ + 1, [] => []
  | fuel + 1, c :: rest =>
    if c = '.' ∧ (rest.headD ' ').isDigit then
      _fix_microseconds (spanDigits rest).1 ++
        applyFixMicrosecondsAux fuel (spanDigits rest).2
    else
      c :: applyFixMicrosecondsAux fuel rest

/-- `re.sub(r"\.\d+", _fix_microseconds, time)` on a character list. -/
def applyFixMicroseconds (l : List Char) : List Char :=
  applyFixMicrosecondsAux l.length l

/-- A decoded timestamp: the fields of a Python `datetime.datetime`, with
`utc` recording whether `tzinfo=datetime.timezone.utc` has been set. -/
structure PyDateTime where
  year : Nat
  month : Nat
  day : Nat
  hour : Nat
  minute : Nat
  second : Nat
  microsecond : Nat
  utc : Bool
deriving DecidableEq, Repr

/-- Take exactly `k` ASCII digits from the stream (the `%Y` field regex). -/
def takeExactDigits : Nat → Nat → List Char → Option (Nat × List Char)
  | 0, acc, s => some (acc, s)
  | k + 1, acc, c :: s =>
    if c.isDigit then takeExactDigits k (acc * 10 + (c.toNat - 48)) s
    else Option.none
  | _ + 1, _, [] => Option.none

/-- Greedily take one or two ASCII digits.  The strptime field regexes for
`%m`, `%d`, `%H`, `%M`, `%S` are alternations such as `1[0-2]|0[1-9]|[1-9]`;
in the two format strings used here every numeric field is followed by a
non-digit separator, so greedy two-digit capture plus the caller's range
check is equivalent. -/
def takeUpTo2Digits : List Char → Option (Nat × List Char)
  | [] => Option.none
  | [c] => if c.isDigit then some (c.toNat - 48, []) else Option.none
  | c :: d :: s =>
    if c.isDigit then
      if d.isDigit then some ((c.toNat - 48) * 10 + (d.toNat - 48), s)
      else some (c.toNat - 48, d :: s)
    else Option.none

/-- Expect one literal character. -/
def expectChar (c : Char) : List Char → Option (List Char)
  | [] => Option.none
  | d :: s => if d = c then some s else Option.none


/-- `datetime.datetime.strptime(time, "%Y-%m-%dT%H:%M:%S.%fZ")` (when
`withFraction` is true) or `... "%Y-%m-%dT%H:%M:%SZ")` (when false),
modelled on the character list of the input.  Field ranges are those of the
strptime regexes (month 1-12, day 1-31, hour 0-23, minute 0-59, second 0-61,
fraction 1-6 digits right-padded to microseconds); the entire input must be
consumed.  The result carries `utc := false`, as strptime returns a naive
datetime. -/
def strptimeTs (withFraction : Bool) (s : List Char) : Option PyDateTime :=
  match takeExactDigits 4 0 s with
  | Option.none => Option.none
  | some (y, s) =>
  match expectChar '-' s with
  | Option.none => Option.none
  | some s =>
  match takeUpTo2Digits s with
  | Option.none => Option.none
  | some (mo, s) =>
  if mo < 1 || 12 < mo then Option.none else
  match expectChar '-' s with
  | Option.none => Option.none
  | some s =>
  match takeUpTo2Digits s with
  | Option.none => Option.none
  | some (d, s) =>
  if d < 1 || 31 < d then Option.none else
  match expectChar 'T' s with
  | Option.none => Option.none
  | some s =>
  match takeUpTo2Digits s with
  | Option.none => Option.none
  | some (h, s) =>
  if 23 < h then Option.none else
  match expectChar ':' s with
  | Option.none => Option.none
  | some s =>
  match takeUpTo2Digits s with
  | Option.none => Option.none
  | some (mi, s) =>
  if 59 < mi then Option.none else
  match expectChar ':' s with
  | Option.none => Option.none
  | some s =>
  match takeUpTo2Digits s with
  | Option.none => Option.none
  | some (sec, s) =>
  if 61 < sec then Option.none else
  if withFraction then
    match expectChar '.' s with
    | Option.none => Option.none
    | some s =>
    match spanDigits s with
    | (ds, s) =>
    if ds.length < 1 || 6 < ds.length then Option.none else
    match expectChar 'Z' s with
    | Option.none => Option.none
    | some s =>
    if s.isEmpty then
      some ⟨y, mo, d, h, mi, sec, digitsToNat ds * 10 ^ (6 - ds.length), false⟩
    else Option.none
  else
    match expectChar 'Z' s with
    | Option.none => Option.none
    | some s =>
    if s.isEmpty then some ⟨y, mo, d, h, mi, sec, 0, false⟩ else Option.none

/-- `idecode_time` of model_types.py, as a function from the popped raw value
to the decoded value (the source pops `parent[name]`, decodes, and stores the
result back; absent input passes through).  If the raw string contains a dot,
the fractional run is rewritten by `_fix_microseconds` and the `.%f` format
is used; otherwise the fraction-free format.  The result is tagged UTC via
`dt.replace(tzinfo=datetime.timezone.utc)`.  A parse failure is a raised
`ValueError`. -/
def idecode_time (time : Option String) : Except String (Option PyDateTime) :=
  match time with
  | Option.none => .ok Option.none
  | some t =>
    if t.data.contains '.' then
      match strptimeTs true (applyFixMicroseconds t.data) with
      | some dt => .ok (some { dt with utc := true })
      | Option.none => .error "ValueError: time data does not match format"
    else
      match strptimeTs false t.data with
      | some dt => .ok (some { dt with utc := true })
      | Option.none => .error "ValueError: time data does not match format"

example :
    idecode_time (some "2024-01-01T00:00:00.1234567Z") =
      .ok (some ⟨2024, 1, 1, 0, 0, 0, 123457, true⟩) := by decide

example : idecode_time (some "2024-01-01T00:00:00Z") =
    .ok (some ⟨2024, 1, 1, 0, 0, 0, 0, true⟩) := by decide

example : idecode_time Option.none = .ok Option.none := rfl

/-! ## Tuned-model name validation (`valid_tuned_model_name` of model_types.py) -/

/-- `[a-z]`. -/
def isLowerAlphaChar (c : Char) : Bool := 'a' ≤ c && c ≤ 'z'

/-- `[a-z0-9]`. -/
def isLowerAlnumChar (c : Char) : Bool := isLowerAlphaChar c || c.isDigit

/-- `[a-z0-9-]`. -/
def isNameMidChar (c : Char) : Bool := isLowerAlnumChar c || c = '-'

/-- Whole-string matcher for the anchor-free part of
`_TUNED_MODEL_VALID_NAME = r"[a-z](([a-z0-9-]{0,61}[a-z0-9])?)$"`:
one `[a-z]`, then optionally up to 61 `[a-z0-9-]` followed by one
`[a-z0-9]`.  A string is in the pattern's language iff it is one lowercase
letter followed by either nothing or by `mid ++ [last]` with
`mid.length ≤ 61` (so 62 characters at most after the head), every `mid`
character in `[a-z0-9-]`, and `last` in `[a-z0-9]`. -/
def matchesTunedPattern : List Char → Bool
  | [] => false
  | c :: rest =>
    isLowerAlphaChar c &&
      (rest.isEmpty ||
        (decide (rest.length ≤ 62) && rest.dropLast.all isNameMidChar &&
          (rest.getLast?.elim false isLowerAlnumChar)))

/-- `valid_tuned_model_name` of model_types.py:
`re.match(_TUNED_MODEL_VALID_NAME, name) is not None`.  `re.match` anchors
at the start only, but the pattern ends in `$`, which in Python matches at
the end of the string *or just before a newline at the end of the string*;
so the pattern may also match everything before a single trailing
newline. -/
def valid_tuned_model_name (name : String) : Bool :=
  matchesTunedPattern name.data ||
    (name.data.getLast? = some '\n' && matchesTunedPattern name.data.dropLast)

example : valid_tuned_model_name "abc-123" = true := by decide
example : valid_tuned_model_name "a" = true := by decide
example : valid_tuned_model_name "a-" = false := by decide
example : valid_tuned_model_name "1abc" = false := by decide
example : valid_tuned_model_name (String.mk (List.replicate 64 'a')) = false := by decide
example : valid_tuned_model_name (String.mk (List.replicate 63 'a' ++ ['\n'])) = true := by
  decide

/-! ## TunedModel decoding (`decode_tuned_model` of model_types.py)

Numeric payload fields that the decoder merely carries through
(`temperature`, `mean_score`, `learning_rate`, ...) are Python floats; no
arithmetic is ever performed on them here, so they are modelled as exact
rationals used as opaque literals. -/

/-- The `Hyperparameters` dataclass (defaults 0, 0, 0.0). -/
structure Hyperparameters where
  epoch_count : Nat := 0
  batch_size : Nat := 0
  learning_rate : Rat := 0
deriving DecidableEq, Repr

/-- A raw `hyperparameters` wire record: the same keys, each possibly
absent (absent keys fall back to the dataclass defaults in
`Hyperparameters(**hype)`). -/
structure HyperparametersRaw where
  epoch_count : Option Nat := Option.none
  batch_size : Option Nat := Option.none
  learning_rate : Option Rat := Option.none
deriving DecidableEq, Repr

/-- `Hyperparameters(**hype)`. -/
def decodeHyperparameters (h : HyperparametersRaw) : Hyperparameters :=
  { epoch_count := h.epoch_count.getD 0,
    batch_size := h.batch_size.getD 0,
    learning_rate := h.learning_rate.getD 0 }

/-- A raw snapshot record inside `tuning_task["snapshots"]`: `compute_time`
is still a wire string. -/
structure TuningSnapshotRaw where
  step : Nat
  epoch : Nat
  mean_score : Rat
  compute_time : Option String := Option.none
deriving DecidableEq, Repr

/-- A snapshot record after `idecode_time(snap, "compute_time")` (the source
keeps the snapshot mappings themselves, with the time field replaced by the
decoded timestamp). -/
structure TuningSnapshotDec where
  step : Nat
  epoch : Nat
  mean_score : Rat
  compute_time : Option PyDateTime := Option.none
deriving DecidableEq, Repr

/-- The raw `tuning_task` wire record. -/
structure TuningTaskRaw where
  start_time : Option String := Option.none
  complete_time : Option String := Option.none
  snapshots : Option (List TuningSnapshotRaw) := Option.none
  hyperparameters : Option HyperparametersRaw := Option.none
deriving DecidableEq, Repr

/-- The `TuningTask` dataclass (snapshot list defaults to `[]`). -/
structure TuningTask where
  start_time : Option PyDateTime := Option.none
  complete_time : Option PyDateTime := Option.none
  snapshots : List TuningSnapshotDec := []
  hyperparameters : Option Hyperparameters := Option.none
deriving DecidableEq, Repr

/-- The nested `tuned_model_source` wire record. -/
structure TunedModelSourceRaw where
  base_model : String
  tuned_model : String
deriving DecidableEq, Repr

/-- A raw `TunedModel` wire record (a mapping; absent keys are `none`).
`state` is the value popped by `tuned_model.pop("state", None)`. -/
structure TunedModelRaw where
  name : Option String := Option.none
  display_name : Option String := Option.none
  description : Option String := Option.none
  temperature : Option Rat := Option.none
  top_p : Option Rat := Option.none
  top_k : Option Rat := Option.none
  state : TunedModelStateInput := .none
  base_model : Option String := Option.none
  tuned_model_source : Option TunedModelSourceRaw := Option.none
  create_time : Option String := Option.none
  update_time : Option String := Option.none
  tuning_task : Option TuningTaskRaw := Option.none
deriving DecidableEq, Repr

/-- The `TunedModel` dataclass of model_types.py with its field defaults. -/
structure TunedModel where
  name : Option String := Option.none
  source_model : Option String := Option.none
  base_model : Option String := Option.none
  display_name : String := ""
  description : String := ""
  temperature : Option Rat := Option.none
  top_p : Option Rat := Option.none
  top_k : Option Rat := Option.none
  state : TunedModelState := .STATE_UNSPECIFIED
  create_time : Option PyDateTime := Option.none
  update_time : Option PyDateTime := Option.none
  tuning_task : Option TuningTask := Option.none
deriving DecidableEq, Repr

/-- Decode each snapshot's `compute_time` in order (the loop
`for snap in snapshots: idecode_time(snap, "compute_time")`). -/
def decodeSnapshots : List TuningSnapshotRaw → Except String (List TuningSnapshotDec)
  | [] => .ok []
  | s :: rest =>
    match idecode_time s.compute_time with
    | .error e => .error e
    | .ok ct =>
      match decodeSnapshots rest with
      | .error e => .error e
      | .ok ds => .ok ({ step := s.step, epoch := s.epoch,
                         mean_score := s.mean_score, compute_time := ct } :: ds)

/-- The `task` block of `decode_tuned_model`: pop `hyperparameters` (decoded
when present), decode `start_time` and `complete_time`, decode each
snapshot's `compute_time` (an absent snapshot list leaves the `TuningTask`
default `[]`), then build the `TuningTask`. -/
def decodeTuningTask (t : TuningTaskRaw) : Except String TuningTask :=
  let hyper := t.hyperparameters.map decodeHyperparameters
  match idecode_time t.start_time with
  | .error e => .error e
  | .ok st =>
  match idecode_time t.complete_time with
  | .error e => .error e
  | .ok ct =>
  match t.snapshots with
  | Option.none =>
    .ok { start_time := st, complete_time := ct, snapshots := [],
          hyperparameters := hyper }
  | some raws =>
    match decodeSnapshots raws with
    | .error e => .error e
    | .ok snaps =>
      .ok { start_time := st, complete_time := ct, snapshots := snaps,
            hyperparameters := hyper }

/-- `decode_tuned_model` of model_types.py on an already-dict wire record:
coerce `state` (a lookup miss raises `KeyError`), reconcile the two legacy
source fields (`base_model` wins over `tuned_model_source`; with neither,
both canonical fields stay absent), decode the timestamps, decode the
optional tuning task, and build the `TunedModel` dataclass. -/
def decode_tuned_model (raw : TunedModelRaw) : Except String TunedModel :=
  match to_tuned_model_state raw.state with
  | Option.none => .error "KeyError: unmapped state value"
  | some st =>
  let sources : Option String × Option String :=
    match raw.base_model, raw.tuned_model_source with
    | some b, _ => (some b, some b)
    | Option.none, some src => (some src.base_model, some src.tuned_model)
    | Option.none, Option.none => (Option.none, Option.none)
  match idecode_time raw.create_time with
  | .error e => .error e
  | .ok ct =>
  match idecode_time raw.update_time with
  | .error e => .error e
  | .ok ut =>
  match raw.tuning_task with
  | Option.none =>
    .ok { name := raw.name, source_model := sources.2, base_model := sources.1,
          display_name := raw.display_name.getD "",
          description := raw.description.getD "",
          temperature := raw.temperature, top_p := raw.top_p, top_k := raw.top_k,
          state := st, create_time := ct, update_time := ut,
          tuning_task := Option.none }
  | some traw =>
    match decodeTuningTask traw with
    | .error e => .error e
    | .ok task =>
      .ok { name := raw.name, source_model := sources.2, base_model := sources.1,
            display_name := raw.display_name.getD "",
            description := raw.description.getD "",
            temperature := raw.temperature, top_p := raw.top_p, top_k := raw.top_k,
            state := st, create_time := ct, update_time := ut,
            tuning_task := some task }

example :
    decode_tuned_model
      { name := some "tunedModels/t1",
        state := .str "ACTIVE",
        tuned_model_source := some { base_model := "models/b",
                                     tuned_model := "tunedModels/t" } } =
    .ok { name := some "tunedModels/t1", source_model := some "tunedModels/t",
          base_model := some "models/b", state := .ACTIVE } := by decide

/-! ## Tuning-data encoding (`encode_tuning_data`, `_convert_dict`,
`_convert_iterable`, `encode_tuning_example`, `_normalize_url` of
model_types.py)

The URL/path branches of `encode_tuning_data` fetch and parse CSV or JSON
through the network or filesystem; those are external collaborators (spec
boundary), so the model covers the pure branches: already-canonical dataset
passthrough, mapping, and iterable, plus the pure URL rewrite
`_normalize_url`. -/

/-- Lexicographic code-point order on character lists (the `<` that Python's
`sorted` uses on strings). -/
def charListLt : List Char → List Char → Bool
  | [], [] => false
  | [], _ :: _ => true
  | _ :: _, [] => false
  | a :: as, b :: bs => if a < b then true else if b < a then false else charListLt as bs

/-- Insert into a sorted list of strings (code-point order, as Python's
`sorted` on strings). -/
def insertSortedStr (s : String) : List String → List String
  | [] => [s]
  | t :: rest =>
    if charListLt t.data s.data then t :: insertSortedStr s rest
    else s :: t :: rest

/-- `sorted(keys)`. -/
def sortStrings : List String → List String
  | [] => []
  | s :: rest => insertSortedStr s (sortStrings rest)

/-- Join strings with `", "`. -/
def joinComma : List String → String
  | [] => ""
  | [s] => s
  | s :: rest => s ++ ", " ++ joinComma rest

/-- Python `repr` of a list of (quote-free) strings, as interpolated into the
`KeyError` message: `['output', 'text_input']`. -/
def pyReprStrList (ks : List String) : String :=
  "[" ++ joinComma (ks.map (fun k => "\x27" ++ k ++ "\x27")) ++ "]"

/-- Python dict column lookup `data[key]` for a mapping of columns. -/
def columnLookup (data : List (String × List String)) (k : String) :
    Option (List String) :=
  (data.find? (fun e => decide (e.1 = k))).map (fun e => e.2)

/-- `_convert_dict` of model_types.py: look up the `input_key` and
`output_key` columns (a missing key raises a `KeyError` whose message names
the requested key and the sorted list of available keys), then zip the two
columns positionally into `TuningExample`s — `zip` stops at the shorter
column.  A `TuningExample` is modelled as its `(text_input, output)` pair
and the resulting `Dataset` as the example list. -/
def _convert_dict (data : List (String × List String))
    (input_key output_key : String) : Except String (List (String × String)) :=
  match columnLookup data input_key with
  | Option.none =>
    .error ("input_key is \"" ++ input_key ++ "\", but data has keys: " ++
      pyReprStrList (sortStrings (data.map (fun e => e.1))))
  | some inputs =>
  match columnLookup data output_key with
  | Option.none =>
    .error ("output_key is \"" ++ output_key ++ "\", but data has keys: " ++
      pyReprStrList (sortStrings (data.map (fun e => e.1))))
  | some outputs => .ok (inputs.zip outputs)

/-- One element of an iterable tuning-data source: an already-canonical
`protos.TuningExample`, a positional 2-tuple/list, or a mapping indexed by
the two keys. -/
inductive TuningExampleOption where
  | example (text_input output : String)
  | pair (a b : String)
  | mapping (m : List (String × String))
deriving DecidableEq, Repr

/-- `encode_tuning_example` of model_types.py. -/
def encode_tuning_example (e : TuningExampleOption)
    (input_key output_key : String) : Except String (String × String) :=
  match e with
  | .example a b => .ok (a, b)
  | .pair a b => .ok (a, b)
  | .mapping m =>
    match (m.find? (fun kv => decide (kv.1 = input_key))).map (fun kv => kv.2) with
    | Option.none => .error ("KeyError: \x27" ++ input_key ++ "\x27")
    | some a =>
    match (m.find? (fun kv => decide (kv.1 = output_key))).map (fun kv => kv.2) with
    | Option.none => .error ("KeyError: \x27" ++ output_key ++ "\x27")
    | some b => .ok (a, b)

/-- `_convert_iterable` of model_types.py. -/
def _convert_iterable (data : List TuningExampleOption)
    (input_key output_key : String) : Except String (List (String × String)) :=
  match data with
  | [] => .ok []
  | e :: rest =>
    match encode_tuning_example e input_key output_key with
    | .error err => .error err
    | .ok ex =>
      match _convert_iterable rest input_key output_key with
      | .error err => .error err
      | .ok exs => .ok (ex :: exs)

/-- The in-memory shapes accepted by `encode_tuning_data`:
an already-canonical `protos.Dataset`, a mapping with `keys()`, or any other
iterable of examples.  (A `str`/`pathlib.Path` input instead goes through
URL normalization and network/file CSV/JSON loading — external
collaborators, not modelled.) -/
inductive TuningDataOptions where
  | dataset (d : List (String × String))
  | mapping (m : List (String × List String))
  | iterable (l : List TuningExampleOption)
deriving DecidableEq, Repr

/-- `encode_tuning_data` of model_types.py on the in-memory shapes, in source
dispatch order: `protos.Dataset` passthrough; an object with `keys` goes to
`_convert_dict`; any other iterable goes to `_convert_iterable`. -/
def encode_tuning_data (data : TuningDataOptions)
    (input_key output_key : String) : Except String (List (String × String)) :=
  match data with
  | .dataset d => .ok d
  | .mapping m => _convert_dict m input_key output_key
  | .iterable l => _convert_iterable l input_key output_key

example :
    encode_tuning_data
      (.mapping [("text_input", ["a", "b"]), ("output", ["x", "y"])])
      "text_input" "output" = .ok [("a", "x"), ("b", "y")] := by decide

example :
    _convert_dict [("text_input", ["a", "b"]), ("wrong", ["x", "y"])]
      "text_input" "output" =
    .error "output_key is \"output\", but data has keys: [\x27text_input\x27, \x27wrong\x27]" := by
  decide

/-- The greedy prefix match `re.match(f"{sheet_base}/d/[^/]+", url)`: when the
URL starts with `.../spreadsheets/d/` followed by at least one non-slash
character, the matched text `group(0)` is that prefix together with the
maximal run of non-slash characters. -/
def sheetsIdMatch (url : String) : Option String :=
  let pre := "https://docs.google.com/spreadsheets/d/"
  if pre.data.isPrefixOf url.data then
    let idseg := (url.data.drop pre.data.length).takeWhile (fun c => c ≠ '/')
    if idseg.isEmpty then Option.none
    else some (pre ++ String.mk idseg)
  else Option.none

/-- `re.search(r"gid=(\d+)", url)`: scan for the first position where `gid=`
is followed by at least one digit; the captured group is the maximal digit
run there. -/
def searchGid : List Char → Option (List Char)
  | [] => Option.none
  | c :: rest =>
    if c = 'g' ∧ ['i', 'd', '='].isPrefixOf rest then
      let ds := (rest.drop 3).takeWhile Char.isDigit
      if ds.isEmpty then searchGid rest else some ds
    else searchGid rest

/-- `_normalize_url` of model_types.py.  A URL that starts with the
spreadsheets base but has no parseable `/d/<id>` segment raises
`ValueError("Incomplete Google Sheets URL: {data}")` — the source string
has no `f` prefix, so the message is that literal text, the braces and the
word `data` included (the original URL never appears in it; indeed no
variable named `data` is in scope in `_normalize_url`). -/
def _normalize_url (url : String) : Except String String :=
  let sheet_base := "https://docs.google.com/spreadsheets"
  if sheet_base.data.isPrefixOf url.data then
    match sheetsIdMatch url with
    | Option.none => .error "Incomplete Google Sheets URL: \x7bdata\x7d"
    | some id_part =>
      let tab_param :=
        match searchGid url.data with
        | some ds => "&gid=" ++ String.mk ds
        | Option.none => ""
      .ok (id_part ++ "/export?format=csv" ++ tab_param)
  else .ok url

example :
    _normalize_url "https://docs.google.com/spreadsheets/d/ID/edit#gid=42" =
    .ok "https://docs.google.com/spreadsheets/d/ID/export?format=csv&gid=42" := by
  decide

example :
    _normalize_url "https://docs.google.com/spreadsheets/abc" =
    .error "Incomplete Google Sheets URL: \x7bdata\x7d" := by decide

example : _normalize_url "https://example.com/data.csv" =
    .ok "https://example.com/data.csv" := by decide

/-! ## Entities and the field-path updater (retriever_types.py) -/

/-- `CustomMetadata` dataclass. -/
structure CustomMetadata where
  key : String
  string_value : Option String := Option.none
  string_list_value : Option (List String) := Option.none
  numeric_value : Option Rat := Option.none
deriving DecidableEq, Repr

/-- `ChunkData` dataclass. -/
structure ChunkData where
  string_value : String
deriving DecidableEq, Repr

/-- A value in an `updates` mapping: a plain (string) value or a nested
mapping that the flattening pre-pass expands into dotted paths. -/
inductive UpdateValue where
  | leaf (v : String)
  | nested (m : List (String × UpdateValue))

mutual
/-- Modelled from the spec: `flatten_update_paths` lives in
`google/generativeai/utils.py`, which is not part of the sources here; §4.4
specifies a flattening pre-pass that expands nested-mapping values into
dotted-path leaves (`{"data": {"string_value": "x"}}` becomes
`{"data.string_value": "x"}`) producing a deterministic,
insertion-order-preserving sequence of leaf paths.  `flattenVal` flattens one
key/value pair. -/
def flattenVal (key : String) : UpdateValue → List (String × String)
  | .leaf v => [(key, v)]
  | .nested m => (flattenEntries m).map (fun kv => (key ++ "." ++ kv.1, kv.2))

/-- Modelled from the spec: flattening of the entries of one mapping, in
insertion order. -/
def flattenEntries : List (String × UpdateValue) → List (String × String)
  | [] => []
  | (k, v) :: rest => flattenVal k v ++ flattenEntries rest
end

/-- Modelled from the spec: the `flatten_update_paths` pre-pass applied to an
`updates` mapping. -/
def flatten_update_paths (updates : List (String × UpdateValue)) :
    List (String × String) :=
  flattenEntries updates

/-- `Corpus` dataclass (operation-relevant fields). -/
structure Corpus where
  name : String
  display_name : String
  create_time : Option PyDateTime := Option.none
  update_time : Option PyDateTime := Option.none
deriving DecidableEq, Repr

/-- `Document` dataclass. -/
structure Document where
  name : String
  display_name : String
  custom_metadata : List CustomMetadata := []
  create_time : Option PyDateTime := Option.none
  update_time : Option PyDateTime := Option.none
deriving DecidableEq, Repr

/-- `Corpus._apply_update`: split the path on dots, walk `getattr` through
all but the last component and `setattr` the last.  For a `Corpus` the only
path the `update` guard lets through is the one-component `display_name`;
the string-valued dataclass attributes are the settable targets. -/
def Corpus.applyUpdate (c : Corpus) (path value : String) : Corpus :=
  if path = "display_name" then { c with display_name := value }
  else if path = "name" then { c with name := value }
  else c

/-- `Document._apply_update` (same shape as `Corpus._apply_update`). -/
def Document.applyUpdate (d : Document) (path value : String) : Document :=
  if path = "display_name" then { d with display_name := value }
  else if path = "name" then { d with name := value }
  else d

/-- `Corpus.update` up to the RPC boundary: flatten the updates, raise
`ValueError` at the first flattened path that is not `display_name`
(the loop runs *before* any `_apply_update`, so on that error the entity is
returned unchanged), otherwise build the field mask (the flattened keys in
order) and apply every mutation.  The pair is (entity state after the call,
outcome), where the outcome carries the field mask paths. -/
def Corpus.update (c : Corpus) (updates : List (String × UpdateValue)) :
    Corpus × Except String (List String) :=
  let u := flatten_update_paths updates
  match u.find? (fun kv => decide (kv.1 ≠ "display_name")) with
  | some _ =>
    (c, .error "At this time, only `display_name` can be updated for `Corpus`.")
  | Option.none =>
    let mask := u.map (fun kv => kv.1)
    (u.foldl (fun acc kv => Corpus.applyUpdate acc kv.1 kv.2) c, .ok mask)

/-- `Document.update` up to the RPC boundary (same structure as
`Corpus.update`, with the `Document` error message). -/
def Document.update (d : Document) (updates : List (String × UpdateValue)) :
    Document × Except String (List String) :=
  let u := flatten_update_paths updates
  match u.find? (fun kv => decide (kv.1 ≠ "display_name")) with
  | some _ =>
    (d, .error "At this time, only `display_name` can be updated for `Document`.")
  | Option.none =>
    let mask := u.map (fun kv => kv.1)
    (u.foldl (fun acc kv => Document.applyUpdate acc kv.1 kv.2) d, .ok mask)

/-- The `data` argument of `Chunk.__init__`
(`data: ChunkData | str`, a raw dict also arriving at runtime). -/
inductive ChunkDataInput where
  | str (s : String)
  | dict (m : List (String × String))
  | chunkData (cd : ChunkData)
deriving DecidableEq, Repr

/-- A `create_time`/`update_time` argument of `Chunk.__init__`
(`datetime.datetime | str | None`). -/
inductive ChunkTimeInput where
  | none
  | dt (t : PyDateTime)
  | str (s : String)
deriving DecidableEq, Repr

/-- The `Chunk` entity.  `data` is `Option ChunkData` because
`Chunk.__init__` assigns `self.data` only in its `str` and `dict` branches:
`Option.none` models the attribute never having been assigned, so that any
later attribute access is an `AttributeError`. -/
structure Chunk where
  name : String
  data : Option ChunkData
  custom_metadata : List CustomMetadata
  state : ChunkState
  create_time : Option PyDateTime := Option.none
  update_time : Option PyDateTime := Option.none
deriving DecidableEq, Repr

/-- `Chunk.__init__`: assign `name`; assign `data` from a `str` (wrapped into
`ChunkData`) or from a dict (`data["string_value"]`, `KeyError` if absent) —
*any other* `data` value (e.g. an already-canonical `ChunkData`) matches
neither `isinstance` branch and `self.data` is never assigned; normalize
`custom_metadata` (`None` becomes `[]`; the `CustomMetadata(*cm)`
re-construction is modelled as the identity on canonical records); coerce
`state` via `to_state` (`KeyError` on a lookup miss); parse string times
with `strptime(..., "%Y-%m-%dT%H:%M:%S.%fZ")` (fraction required, and no
UTC tagging here). -/
def Chunk.init (name : String) (data : ChunkDataInput)
    (custom_metadata : Option (List CustomMetadata)) (state : ChunkStateInput)
    (create_time : ChunkTimeInput := .none)
    (update_time : ChunkTimeInput := .none) : Except String Chunk :=
  let dataField : Except String (Option ChunkData) :=
    match data with
    | .str s => .ok (some { string_value := s })
    | .dict m =>
      match (m.find? (fun kv => decide (kv.1 = "string_value"))).map (fun kv => kv.2) with
      | some v => .ok (some { string_value := v })
      | Option.none => .error "KeyError: \x27string_value\x27"
    | .chunkData _ => .ok Option.none
  match dataField with
  | .error e => .error e
  | .ok df =>
  let cm := match custom_metadata with
    | Option.none => []
    | some l => l
  match to_state state with
  | Option.none => .error "KeyError: unmapped state value"
  | some st =>
  let decodeT : ChunkTimeInput → Except String (Option PyDateTime) := fun t =>
    match t with
    | .none => .ok Option.none
    | .dt d => .ok (some d)
    | .str s =>
      match strptimeTs true s.data with
      | some d => .ok (some d)
      | Option.none => .error "ValueError: time data does not match format"
  match decodeT create_time with
  | .error e => .error e
  | .ok ct =>
  match decodeT update_time with
  | .error e => .error e
  | .ok ut =>
    .ok { name := name, data := df, custom_metadata := cm, state := st,
          create_time := ct, update_time := ut }

/-- `Chunk._apply_update`: walk the dotted path with `getattr` and set the
final attribute.  On path `data.string_value` the first step reads
`self.data`, which is an `AttributeError` when the attribute was never
assigned. -/
def Chunk.applyUpdate (c : Chunk) (path value : String) : Except String Chunk :=
  if path = "data.string_value" then
    match c.data with
    | Option.none => .error "AttributeError: \x27Chunk\x27 object has no attribute \x27data\x27"
    | some d => .ok { c with data := some { d with string_value := value } }
  else if path = "name" then .ok { c with name := value }
  else .ok c

/-- Apply the flattened updates in order, stopping at the first raised
error (the entity keeps the mutations applied so far). -/
def Chunk.applyUpdates (c : Chunk) : List (String × String) → Chunk × Except String Unit
  | [] => (c, .ok ())
  | (p, v) :: rest =>
    match Chunk.applyUpdate c p v with
    | .error e => (c, .error e)
    | .ok c2 => Chunk.applyUpdates c2 rest

/-- `Chunk.update` up to the RPC boundary: flatten, raise `ValueError` at the
first flattened path other than `data.string_value` (naming that path, and
before any mutation), otherwise build the field mask and mutate. -/
def Chunk.update (c : Chunk) (updates : List (String × UpdateValue)) :
    Chunk × Except String (List String) :=
  let u := flatten_update_paths updates
  match u.find? (fun kv => decide (kv.1 ≠ "data.string_value")) with
  | some kv =>
    (c, .error ("At this time, only `data` can be updated for `Chunk`. Got " ++
      kv.1 ++ "."))
  | Option.none =>
    let mask := u.map (fun kv => kv.1)
    match Chunk.applyUpdates c u with
    | (c2, .ok _) => (c2, .ok mask)
    | (c2, .error e) => (c2, .error e)

/-- The dict built by `Chunk.to_dict`: reading `self.data` raises an
`AttributeError` when `__init__` never assigned it. -/
structure ChunkDict where
  name : String
  data : ChunkData
  custom_metadata : List CustomMetadata
  state : ChunkState
deriving DecidableEq, Repr

/-- `Chunk.to_dict` of retriever_types.py. -/
def Chunk.to_dict (c : Chunk) : Except String ChunkDict :=
  match c.data with
  | Option.none => .error "AttributeError: \x27Chunk\x27 object has no attribute \x27data\x27"
  | some d =>
    .ok { name := c.name, data := d, custom_metadata := c.custom_metadata,
          state := c.state }

/-! ## Query request building (`Corpus.query`, `Document.query`) -/

/-- `Condition.value` (`str | float`). -/
inductive ConditionValue where
  | str (s : String)
  | num (q : Rat)
deriving DecidableEq, Repr

/-- `Condition` dataclass; at runtime `operation` may be any
`OperatorOptions` value. -/
structure Condition where
  value : ConditionValue
  operation : OperatorInput
deriving DecidableEq, Repr

/-- `MetadataFilter` dataclass (note: `conditions` is one `Condition`). -/
structure MetadataFilter where
  key : String
  conditions : Condition
deriving DecidableEq, Repr

/-- The request-side filter mapping built by `create_metadata_filters`. -/
structure MetadataFilterDict where
  key : String
  conditions : List (ConditionValue × Operator)
deriving DecidableEq, Repr

/-- `create_metadata_filters` of retriever_types.py (the `to_operator`
lookup miss is a raised `KeyError`). -/
def create_metadata_filters (mf : MetadataFilter) :
    Except String MetadataFilterDict :=
  match to_operator mf.conditions.operation with
  | Option.none => .error "KeyError: unmapped operator value"
  | some op => .ok { key := mf.key, conditions := [(mf.conditions.value, op)] }

/-- The loop `for mf in metadata_filters: m_f_.append(create_metadata_filters(mf))`. -/
def buildMetadataFilters : List MetadataFilter → Except String (List MetadataFilterDict)
  | [] => .ok []
  | mf :: rest =>
    match create_metadata_filters mf with
    | .error e => .error e
    | .ok d =>
      match buildMetadataFilters rest with
      | .error e => .error e
      | .ok ds => .ok (d :: ds)

/-- Python truthiness of the `results_count` argument
(`if results_count:` — `None` and `0` are falsy). -/
def truthyCount : Option Int → Bool
  | Option.none => false
  | some n => n != 0

/-- A `glm.QueryCorpusRequest` (the fields the façade fills in). -/
structure QueryCorpusRequest where
  name : String
  query : String
  metadata_filters : List MetadataFilterDict
  results_count : Option Int
deriving DecidableEq, Repr

/-- A `glm.QueryDocumentRequest`. -/
structure QueryDocumentRequest where
  name : String
  query : String
  metadata_filters : List MetadataFilterDict
  results_count : Option Int
deriving DecidableEq, Repr

/-- `Corpus.query` up to the RPC boundary: for a truthy `results_count`,
raise `ValueError` when `results_count > 100` (the two nested `if`s are
written as one conjunction); then build the filter list and the request.
An `Except.error` means the `ValueError` was raised before any request was
built. -/
def Corpus.query (c : Corpus) (query : String)
    (metadata_filters : List MetadataFilter := [])
    (results_count : Option Int := Option.none) :
    Except String QueryCorpusRequest :=
  if truthyCount results_count && decide (100 < results_count.getD 0) then
    .error "Number of results returned must be between 1 and 100."
  else
    match buildMetadataFilters metadata_filters with
    | .error e => .error e
    | .ok m_f_ =>
      .ok { name := c.name, query := query, metadata_filters := m_f_,
            results_count := results_count }

/-- `Document.query` up to the RPC boundary: for a truthy `results_count`,
raise `ValueError` when `results_count < 0 or results_count >= 100`. -/
def Document.query (d : Document) (query : String)
    (metadata_filters : List MetadataFilter := [])
    (results_count : Option Int := Option.none) :
    Except String QueryDocumentRequest :=
  if truthyCount results_count &&
      (decide (results_count.getD 0 < 0) || decide (100 ≤ results_count.getD 0)) then
    .error "Number of results returned must be between 1 and 100."
  else
    match buildMetadataFilters metadata_filters with
    | .error e => .error e
    | .ok m_f_ =>
      .ok { name := d.name, query := query, metadata_filters := m_f_,
            results_count := results_count }

example :
    (Corpus.query { name := "corpora/c1", display_name := "" } "q" [] (some 100)).isOk = true := by
  decide

example :
    (Document.query { name := "corpora/c1/documents/d1", display_name := "" } "q" []
      (some 100)).isOk = false := by decide

/-! ## Claim theorems -/

/-- Concrete entities used by the witnesses. -/
def docW : Document :=
  { name := "corpora/c1/documents/d1", display_name := "old" }

def corpusW : Corpus :=
  { name := "corpora/c1", display_name := "old" }

def chunkW : Chunk :=
  { name := "corpora/c1/documents/d1/chunks/ck1",
    data := some { string_value := "payload" },
    custom_metadata := [], state := .STATE_ACTIVE }

/-- C1.  Partial updates are all-or-nothing: whenever the flattened `updates`
mapping contains at least one path outside the allow-list, `update` raises
`ValueError` (for Document and Corpus with the fixed message, for Chunk
naming the offending path) and the entity is returned exactly as it was — in
particular `display_name` keeps its prior value.  The validation loop over
every flattened path runs before any `_apply_update` mutation. -/
theorem claim_c1_update_all_or_nothing
    (d : Document) (c : Corpus) (ch : Chunk)
    (du cu chu : List (String × UpdateValue))
    (hd : ∃ kv ∈ flatten_update_paths du, kv.1 ≠ "display_name")
    (hc : ∃ kv ∈ flatten_update_paths cu, kv.1 ≠ "display_name")
    (hch : ∃ kv ∈ flatten_update_paths chu, kv.1 ≠ "data.string_value") :
    Document.update d du =
      (d, .error "At this time, only `display_name` can be updated for `Document`.") ∧
    (Document.update d du).1.display_name = d.display_name ∧
    Corpus.update c cu =
      (c, .error "At this time, only `display_name` can be updated for `Corpus`.") ∧
    (∃ msg, Chunk.update ch chu = (ch, .error msg)) := by
  have hfd : ∃ kv, (flatten_update_paths du).find?
      (fun kv => decide (kv.1 ≠ "display_name")) = some kv := by
    rw [← Option.isSome_iff_exists, List.find?_isSome]
    obtain ⟨kv, hmem, hne⟩ := hd
    exact ⟨kv, hmem, by simpa using hne⟩
  have hfc : ∃ kv, (flatten_update_paths cu).find?
      (fun kv => decide (kv.1 ≠ "display_name")) = some kv := by
    rw [← Option.isSome_iff_exists, List.find?_isSome]
    obtain ⟨kv, hmem, hne⟩ := hc
    exact ⟨kv, hmem, by simpa using hne⟩
  have hfch : ∃ kv, (flatten_update_paths chu).find?
      (fun kv => decide (kv.1 ≠ "data.string_value")) = some kv := by
    rw [← Option.isSome_iff_exists, List.find?_isSome]
    obtain ⟨kv, hmem, hne⟩ := hch
    exact ⟨kv, hmem, by simpa using hne⟩
  obtain ⟨kvd, hkvd⟩ := hfd
  obtain ⟨kvc, hkvc⟩ := hfc
  obtain ⟨kvch, hkvch⟩ := hfch
  have h1 : Document.update d du =
      (d, .error "At this time, only `display_name` can be updated for `Document`.") := by
    unfold Document.update
    simp only [hkvd]
  refine ⟨h1, by rw [h1], ?_, ?_⟩
  · unfold Corpus.update
    simp only [hkvc]
  · refine ⟨"At this time, only `data` can be updated for `Chunk`. Got " ++
      kvch.1 ++ ".", ?_⟩
    unfold Chunk.update
    simp only [hkvch]

/-- Witness for C1 at the spec's own example `{"display_name": "x",
"bogus": "y"}` (and its Chunk analogue). -/
theorem claim_c1_witness :
    Document.update docW [("display_name", .leaf "x"), ("bogus", .leaf "y")] =
      (docW, .error "At this time, only `display_name` can be updated for `Document`.") ∧
    (Document.update docW [("display_name", .leaf "x"), ("bogus", .leaf "y")]).1.display_name
      = docW.display_name ∧
    Corpus.update corpusW [("display_name", .leaf "x"), ("bogus", .leaf "y")] =
      (corpusW, .error "At this time, only `display_name` can be updated for `Corpus`.") ∧
    (∃ msg, Chunk.update chunkW [("data.string_value", .leaf "x"), ("bogus", .leaf "y")] =
      (chunkW, .error msg)) :=
  claim_c1_update_all_or_nothing docW corpusW chunkW
    [("display_name", .leaf "x"), ("bogus", .leaf "y")]
    [("display_name", .leaf "x"), ("bogus", .leaf "y")]
    [("data.string_value", .leaf "x"), ("bogus", .leaf "y")]
    (by refine ⟨("bogus", "y"), ?_, by decide⟩
        simp [flatten_update_paths, flattenEntries, flattenVal])
    (by refine ⟨("bogus", "y"), ?_, by decide⟩
        simp [flatten_update_paths, flattenEntries, flattenVal])
    (by refine ⟨("bogus", "y"), ?_, by decide⟩
        simp [flatten_update_paths, flattenEntries, flattenVal])

/-- C3.  For every truthy `results_count`: `Corpus.query` raises `ValueError`
before any request is built exactly when `results_count > 100`, and
`Document.query` exactly when `results_count < 0` or `results_count >= 100`
(an `Except.error` is the raise; the request value exists only in the
`Except.ok` case, so the error happens before any request is built). -/
theorem claim_c3_query_result_count_bounds
    (c : Corpus) (d : Document) (q : String) (n : Int) (hn : n ≠ 0) :
    ((∃ e, Corpus.query c q [] (some n) = .error e) ↔ 100 < n) ∧
    ((∃ e, Document.query d q [] (some n) = .error e) ↔ (n < 0 ∨ 100 ≤ n)) := by
  constructor
  · unfold Corpus.query
    by_cases h : (100 : Int) < n
    · simp [truthyCount, hn, h]
    · simp [truthyCount, hn, h, buildMetadataFilters]
  · unfold Document.query
    by_cases h1 : n < 0
    · simp [truthyCount, hn, h1]
    · by_cases h2 : (100 : Int) ≤ n
      · simp [truthyCount, hn, h1, h2]
      · simp [truthyCount, hn, h1, h2, buildMetadataFilters]

/-- Witness for C3 at `results_count = 100`: `Corpus.query` accepts exactly
100 while `Document.query` rejects it. -/
theorem claim_c3_witness :
    (¬ ∃ e, Corpus.query corpusW "q" [] (some 100) = .error e) ∧
    (∃ e, Document.query docW "q" [] (some 100) = .error e) := by
  have h := claim_c3_query_result_count_bounds corpusW docW "q" 100 (by decide)
  refine ⟨fun hx => absurd (h.1.mp hx) (by decide), h.2.mpr (Or.inr (by decide))⟩

/-- C2 counterexample.  The claim says coercion of *every* unknown input —
including any string that is not a listed alias, and `None` for both
families — returns the UNSPECIFIED variant and never raises; but
`to_tuned_model_state("bogus")` is a dict lookup miss, i.e. a raised
`KeyError` (modelled `Option.none`), not `STATE_UNSPECIFIED`, and
`to_state(None)` likewise misses because `_STATE` has no `None` key. -/
theorem claim_c2_counterexample :
    to_tuned_model_state (.str "bogus") = Option.none ∧
    to_tuned_model_state (.str "bogus") ≠ some TunedModelState.STATE_UNSPECIFIED ∧
    to_state .none = Option.none ∧
    to_state .none ≠ some ChunkState.STATE_UNSPECIFIED := by decide

/-- `to_tuned_model_state` on a string input is the table lookup of its
lower-cased form (definitional). -/
theorem to_tuned_model_state_str_eq (u : String) :
    to_tuned_model_state (.str u) =
      pydict_get _TUNED_MODEL_STATES (.str (pyLower u)) := rfl

/-- `to_state` on a string input is the table lookup of its lower-cased form
(definitional). -/
theorem to_state_str_eq (u : String) :
    to_state (.str u) = pydict_get _STATE (.str (pyLower u)) := rfl

/-- C2 as amended.  For both enum families every *listed* input coerces to
its mapped variant: the canonical enum value, its integer wire value, and
each string alias case-insensitively; `to_tuned_model_state` additionally
maps absent input (`None`) to `STATE_UNSPECIFIED`.  But a string outside
the alias table raises `KeyError` for both families, and `to_state` also
raises on `None` (its table has no `None` key): coercion defaults to
UNSPECIFIED only for the listed inputs of `_TUNED_MODEL_STATES`, not for
arbitrary unknown input. -/
theorem claim_c2_amended_coercion (s t : String)
    (hs : pyLower s ∉
      ["active", "creating", "failed", "state_unspecified", "unspecified"])
    (ht : pyLower t ∉
      ["state_unspecifed", "unspecified", "pending_processing", "pending",
       "state_active", "active", "state_failed", "failed"]) :
    (∀ st : TunedModelState, to_tuned_model_state (.enum st) = some st) ∧
    (∀ st : TunedModelState, to_tuned_model_state (.int st.wire) = some st) ∧
    (∀ u : String, pyLower u = "active" →
       to_tuned_model_state (.str u) = some .ACTIVE) ∧
    (∀ u : String, pyLower u = "creating" →
       to_tuned_model_state (.str u) = some .CREATING) ∧
    (∀ u : String, pyLower u = "failed" →
       to_tuned_model_state (.str u) = some .FAILED) ∧
    (∀ u : String, pyLower u = "state_unspecified" →
       to_tuned_model_state (.str u) = some .STATE_UNSPECIFIED) ∧
    (∀ u : String, pyLower u = "unspecified" →
       to_tuned_model_state (.str u) = some .STATE_UNSPECIFIED) ∧
    to_tuned_model_state .none = some .STATE_UNSPECIFIED ∧
    to_tuned_model_state (.str s) = Option.none ∧
    (∀ st : ChunkState, to_state (.enum st) = some st) ∧
    (∀ st : ChunkState, to_state (.int st.wire) = some st) ∧
    (∀ u : String, pyLower u = "state_unspecifed" →
       to_state (.str u) = some .STATE_UNSPECIFIED) ∧
    (∀ u : String, pyLower u = "unspecified" →
       to_state (.str u) = some .STATE_UNSPECIFIED) ∧
    (∀ u : String, pyLower u = "pending_processing" →
       to_state (.str u) = some .STATE_PENDING_PROCESSING) ∧
    (∀ u : String, pyLower u = "pending" →
       to_state (.str u) = some .STATE_PENDING_PROCESSING) ∧
    (∀ u : String, pyLower u = "state_active" →
       to_state (.str u) = some .STATE_ACTIVE) ∧
    (∀ u : String, pyLower u = "active" →
       to_state (.str u) = some .STATE_ACTIVE) ∧
    (∀ u : String, pyLower u = "state_failed" →
       to_state (.str u) = some .STATE_FAILED) ∧
    (∀ u : String, pyLower u = "failed" →
       to_state (.str u) = some .STATE_FAILED) ∧
    to_state (.str t) = Option.none ∧
    to_state .none = Option.none := by
  obtain ⟨h1, h2, h3, h4, h5⟩ :
      pyLower s ≠ "active" ∧ pyLower s ≠ "creating" ∧ pyLower s ≠ "failed" ∧
      pyLower s ≠ "state_unspecified" ∧ pyLower s ≠ "unspecified" := by
    simpa [not_or] using hs
  obtain ⟨g1, g2, g3, g4, g5, g6, g7, g8⟩ :
      pyLower t ≠ "state_unspecifed" ∧ pyLower t ≠ "unspecified" ∧
      pyLower t ≠ "pending_processing" ∧ pyLower t ≠ "pending" ∧
      pyLower t ≠ "state_active" ∧ pyLower t ≠ "state_failed" ∧
      pyLower t ≠ "active" ∧ pyLower t ≠ "failed" := by
    constructor
    · intro h; exact ht (by rw [h]; decide)
    constructor
    · intro h; exact ht (by rw [h]; decide)
    constructor
    · intro h; exact ht (by rw [h]; decide)
    constructor
    · intro h; exact ht (by rw [h]; decide)
    constructor
    · intro h; exact ht (by rw [h]; decide)
    constructor
    · intro h; exact ht (by rw [h]; decide)
    constructor
    · intro h; exact ht (by rw [h]; decide)
    · intro h; exact ht (by rw [h]; decide)
  refine ⟨fun st => by cases st <;> decide,
          fun st => by cases st <;> decide,
          fun u h => by rw [to_tuned_model_state_str_eq, h]; decide,
          fun u h => by rw [to_tuned_model_state_str_eq, h]; decide,
          fun u h => by rw [to_tuned_model_state_str_eq, h]; decide,
          fun u h => by rw [to_tuned_model_state_str_eq, h]; decide,
          fun u h => by rw [to_tuned_model_state_str_eq, h]; decide,
          by decide, ?_,
          fun st => by cases st <;> decide,
          fun st => by cases st <;> decide,
          fun u h => by rw [to_state_str_eq, h]; decide,
          fun u h => by rw [to_state_str_eq, h]; decide,
          fun u h => by rw [to_state_str_eq, h]; decide,
          fun u h => by rw [to_state_str_eq, h]; decide,
          fun u h => by rw [to_state_str_eq, h]; decide,
          fun u h => by rw [to_state_str_eq, h]; decide,
          fun u h => by rw [to_state_str_eq, h]; decide,
          fun u h => by rw [to_state_str_eq, h]; decide,
          ?_, by decide⟩
  · simp [to_tuned_model_state, pydict_get, _TUNED_MODEL_STATES,
      Ne.symm h1, Ne.symm h2, Ne.symm h3, Ne.symm h4, Ne.symm h5]
  · simp [to_state, pydict_get, _STATE,
      Ne.symm g1, Ne.symm g2, Ne.symm g3, Ne.symm g4, Ne.symm g5,
      Ne.symm g6, Ne.symm g7, Ne.symm g8]

/-- Witness for amended C2: listed aliases (enum, wire integer,
case-varied strings) of both families coerce to their variants, `None`
defaults only for TunedModelState, and the unknown strings miss. -/
theorem claim_c2_amended_witness :
    to_tuned_model_state (.enum .ACTIVE) = some .ACTIVE ∧
    to_tuned_model_state (.int 1) = some .CREATING ∧
    to_tuned_model_state (.str "ACTIVE") = some .ACTIVE ∧
    to_tuned_model_state (.str "Creating") = some .CREATING ∧
    to_tuned_model_state .none = some .STATE_UNSPECIFIED ∧
    to_tuned_model_state (.str "bogus") = Option.none ∧
    to_state (.enum .STATE_FAILED) = some .STATE_FAILED ∧
    to_state (.int 10) = some .STATE_FAILED ∧
    to_state (.str "Pending") = some .STATE_PENDING_PROCESSING ∧
    to_state (.str "BOGUS") = Option.none ∧
    to_state .none = Option.none := by
  obtain ⟨c1, c2, c3, c4, c5, c6, c7, c8, c9, c10, c11, c12, c13, c14, c15,
    c16, c17, c18, c19, c20, c21⟩ :=
    claim_c2_amended_coercion "bogus" "BOGUS" (by decide) (by decide)
  exact ⟨c1 .ACTIVE, c2 .CREATING, c3 "ACTIVE" (by decide),
    c4 "Creating" (by decide), c8, c9, c10 .STATE_FAILED, c11 .STATE_FAILED,
    c15 "Pending" (by decide), c20, c21⟩

/-- C7.  The claim (identity on canonical Operator values and inversion of
the wire encoding, in particular for INCLUDES with wire value 6) fails: the
`_OPERATOR` dict literal repeats the integer key `6` in the EXCLUDES block
(where `7` was evidently intended), and since proto enums are IntEnums the
later `6: Operator.EXCLUDES` entry overwrites the INCLUDES entries.  So both
`to_operator(Operator.INCLUDES)` and `to_operator(6)` return `EXCLUDES` —
while the string alias `"includes"` still maps to `INCLUDES`, exhibiting the
table's internal inconsistency. -/
theorem claim_c7_includes_clobbered :
    to_operator (.enum .INCLUDES) = some Operator.EXCLUDES ∧
    to_operator (.int 6) = some Operator.EXCLUDES ∧
    to_operator (.int 7) = some Operator.EXCLUDES ∧
    to_operator (.enum .EXCLUDES) = some Operator.EXCLUDES ∧
    to_operator (.str "includes") = some Operator.INCLUDES ∧
    to_operator (.str "not in") = some Operator.EXCLUDES := by decide

/-- C4.  `decode_tuned_model` reconciles the two mutually exclusive legacy
source fields: a present (non-None) `base_model` wins and fills both
canonical fields; otherwise a present `tuned_model_source` supplies
`base_model` from its nested base and `source_model` from its nested tuned
name; with neither, both canonical fields stay absent. -/
theorem claim_c4_source_reconciliation (raw : TunedModelRaw) (m : TunedModel)
    (h : decode_tuned_model raw = .ok m) :
    (∀ b, raw.base_model = some b →
       m.base_model = some b ∧ m.source_model = some b) ∧
    (raw.base_model = Option.none → ∀ src, raw.tuned_model_source = some src →
       m.base_model = some src.base_model ∧ m.source_model = some src.tuned_model) ∧
    (raw.base_model = Option.none → raw.tuned_model_source = Option.none →
       m.base_model = Option.none ∧ m.source_model = Option.none) := by
  unfold decode_tuned_model at h
  cases hst : to_tuned_model_state raw.state with
  | none => simp [hst] at h
  | some st =>
  simp only [hst] at h
  cases hct : idecode_time raw.create_time with
  | error e => simp [hct] at h
  | ok ct =>
  simp only [hct] at h
  cases hut : idecode_time raw.update_time with
  | error e => simp [hut] at h
  | ok ut =>
  simp only [hut] at h
  have hfields : m.base_model =
      (match raw.base_model, raw.tuned_model_source with
        | some b, _ => (some b, some b)
        | Option.none, some src => (some src.base_model, some src.tuned_model)
        | Option.none, Option.none => (Option.none, Option.none)).1 ∧
      m.source_model =
      (match raw.base_model, raw.tuned_model_source with
        | some b, _ => (some b, some b)
        | Option.none, some src => (some src.base_model, some src.tuned_model)
        | Option.none, Option.none => (Option.none, Option.none)).2 := by
    cases htask : raw.tuning_task with
    | none =>
      simp only [htask, Except.ok.injEq] at h
      rw [← h]
      exact ⟨rfl, rfl⟩
    | some traw =>
      simp only [htask] at h
      cases hdec : decodeTuningTask traw with
      | error e => simp [hdec] at h
      | ok task =>
        simp only [hdec, Except.ok.injEq] at h
        rw [← h]
        exact ⟨rfl, rfl⟩
  refine ⟨?_, ?_, ?_⟩
  · intro b hb
    rw [hb] at hfields
    simpa using hfields
  · intro hb src hsrc
    rw [hb, hsrc] at hfields
    simpa using hfields
  · intro hb hsrc
    rw [hb, hsrc] at hfields
    simpa using hfields

/-- The spec's own C4 example record: `tuned_model_source` present,
`base_model` absent. -/
def tunedRawW : TunedModelRaw :=
  { state := .str "ACTIVE",
    tuned_model_source := some { base_model := "models/b",
                                 tuned_model := "tunedModels/t" } }

/-- Witness for C4: decoding `tunedRawW` succeeds and yields
`base_model = "models/b"`, `source_model = "tunedModels/t"`. -/
theorem claim_c4_witness :
    ∃ m, decode_tuned_model tunedRawW = .ok m ∧
      m.base_model = some "models/b" ∧ m.source_model = some "tunedModels/t" := by
  refine ⟨{ state := .ACTIVE, base_model := some "models/b",
            source_model := some "tunedModels/t" }, by decide, ?_⟩
  have h := claim_c4_source_reconciliation tunedRawW
    { state := .ACTIVE, base_model := some "models/b",
      source_model := some "tunedModels/t" } (by decide)
  exact h.2.1 (by decide) { base_model := "models/b", tuned_model := "tunedModels/t" }
    (by decide)

/-- C5.  Time decoding rescales a variable-precision fractional second to
exactly six digits by multiplying by 1e6 and rounding before parsing:
decoding `"2024-01-01T00:00:00.1234567Z"` yields a UTC timestamp whose
microsecond field is the rounded 123457 — and not the truncation of the
digit run to six digits, which would be 123456. -/
theorem claim_c5_microsecond_rounding :
    idecode_time (some "2024-01-01T00:00:00.1234567Z") =
      .ok (some { year := 2024, month := 1, day := 1, hour := 0, minute := 0,
                  second := 0, microsecond := 123457, utc := true }) ∧
    digitsToNat (List.take 6 "1234567".data) = 123456 := by decide

/-- The tuned-model name pattern exactly as the claim describes it: a
lowercase letter, then 0-61 lowercase-alphanumeric-or-dash characters,
final character alphanumeric if any (at most 63 characters total). -/
def specTunedNamePattern (s : String) : Prop :=
  ∃ c rest, s.data = c :: rest ∧ isLowerAlphaChar c = true ∧
    (rest = [] ∨ ∃ mid last, rest = mid ++ [last] ∧ mid.length ≤ 61 ∧
      (∀ x ∈ mid, isNameMidChar x = true) ∧ isLowerAlnumChar last = true)

/-- C6 counterexample.  The claim says every string longer than 63
characters is rejected; but the pattern's `$` also matches just before a
trailing newline, so the 64-character string of 63 `a`s plus a newline is
accepted by `valid_tuned_model_name`. -/
theorem claim_c6_counterexample :
    63 < (String.mk (List.replicate 63 'a' ++ ['\n'])).length ∧
    valid_tuned_model_name (String.mk (List.replicate 63 'a' ++ ['\n'])) = true := by
  decide

/-- A digit or dash head character fails `[a-z]`. -/
theorem isLowerAlphaChar_false_of_digit_or_dash (c : Char)
    (h : ('0' ≤ c ∧ c ≤ '9') ∨ c = '-') : isLowerAlphaChar c = false := by
  unfold isLowerAlphaChar
  rcases h with ⟨_, h2⟩ | rfl
  · have hna : ¬ ('a' ≤ c) := by
      intro hle
      exact absurd (le_trans hle h2) (by decide)
    simp [hna]
  · decide

/-- C6 as amended.  Every string matching the described pattern is accepted;
every string longer than 63 characters is rejected *unless it ends in a
newline* (the terminal `$` of the pattern also matches just before a single
trailing newline, so a valid 63-character name plus a newline — 64
characters — is accepted, see the counterexample); and every string
starting with a digit or a dash is rejected. -/
theorem claim_c6_amended_name_pattern :
    (∀ s : String, specTunedNamePattern s → valid_tuned_model_name s = true) ∧
    (∀ s : String, 63 < s.length → s.data.getLast? ≠ some '\n' →
       valid_tuned_model_name s = false) ∧
    (∀ (s : String) (c : Char) (rest : List Char), s.data = c :: rest →
       (('0' ≤ c ∧ c ≤ '9') ∨ c = '-') → valid_tuned_model_name s = false) := by
  refine ⟨?_, ?_, ?_⟩
  · rintro s ⟨c, rest, hdata, hc, hrest⟩
    unfold valid_tuned_model_name
    rw [hdata]
    rcases hrest with rfl | ⟨mid, last, rfl, hlen, hmid, hlast⟩
    · simp [matchesTunedPattern, hc]
    · have h62 : (mid ++ [last]).length ≤ 62 := by
        simp only [List.length_append, List.length_singleton]
        omega
      simp [matchesTunedPattern, hc, h62, List.dropLast_concat,
        List.getLast?_concat, hlast, List.all_eq_true.mpr hmid]
      exact Or.inl hlen
  · intro s h63 hnl
    unfold valid_tuned_model_name
    have hlen : 63 < s.data.length := h63
    cases hdata : s.data with
    | nil => rw [hdata] at hlen; simp at hlen
    | cons c rest =>
      rw [hdata] at hlen
      simp only [List.length_cons] at hlen
      have hne : ¬ rest.isEmpty := by
        cases rest with
        | nil => simp at hlen
        | cons a b => simp
      have hgt : ¬ rest.length ≤ 62 := by omega
      rw [hdata] at hnl
      simp [matchesTunedPattern, hne, hgt, hnl]
  · intro s c rest hdata hc
    have hfalse := isLowerAlphaChar_false_of_digit_or_dash c hc
    unfold valid_tuned_model_name
    rw [hdata]
    cases rest with
    | nil => simp [matchesTunedPattern, hfalse]
    | cons r rs =>
      have hdl : (c :: r :: rs).dropLast = c :: (r :: rs).dropLast := rfl
      simp [matchesTunedPattern, hfalse, hdl]

/-- Witness for amended C6: a matching name is accepted; a 64-character
non-newline-terminated string and a digit-initial string are rejected. -/
theorem claim_c6_amended_witness :
    valid_tuned_model_name "ab9" = true ∧
    valid_tuned_model_name (String.mk (List.replicate 64 'a')) = false ∧
    valid_tuned_model_name "1ab" = false := by
  have h := claim_c6_amended_name_pattern
  refine ⟨?_, ?_, ?_⟩
  · exact h.1 "ab9" ⟨'a', ['b', '9'], rfl, by decide,
      Or.inr ⟨['b'], '9', rfl, by decide, by decide, by decide⟩⟩
  · exact h.2.1 (String.mk (List.replicate 64 'a')) (by decide) (by decide)
  · exact h.2.2 "1ab" '1' ['a', 'b'] rfl (Or.inl (by decide))

/-- C8.  Encoding tuning data from a mapping looks up the `input_key` and
`output_key` columns and zips them positionally — so the spec's example
yields exactly the two examples in order — truncating to the shorter of the
two sequences, and raises a `KeyError` listing the (sorted) available keys
when a required key is absent: a missing `input_key` raises with the
`input_key is ...` message, and a missing `output_key` (with the input
column present) raises with the `output_key is ...` message. -/
theorem claim_c8_mapping_encoding :
    encode_tuning_data (.mapping [("text_input", ["a", "b"]), ("output", ["x", "y"])])
      "text_input" "output" = .ok [("a", "x"), ("b", "y")] ∧
    (∀ data ikey okey inputs outputs,
       columnLookup data ikey = some inputs →
       columnLookup data okey = some outputs →
       encode_tuning_data (.mapping data) ikey okey = .ok (inputs.zip outputs) ∧
       (inputs.zip outputs).length = min inputs.length outputs.length) ∧
    (∀ data ikey okey, columnLookup data ikey = Option.none →
       encode_tuning_data (.mapping data) ikey okey =
         .error ("input_key is \"" ++ ikey ++ "\", but data has keys: " ++
           pyReprStrList (sortStrings (data.map (fun e => e.1))))) ∧
    (∀ data ikey okey inputs,
       columnLookup data ikey = some inputs →
       columnLookup data okey = Option.none →
       encode_tuning_data (.mapping data) ikey okey =
         .error ("output_key is \"" ++ okey ++ "\", but data has keys: " ++
           pyReprStrList (sortStrings (data.map (fun e => e.1))))) := by
  refine ⟨by decide, ?_, ?_, ?_⟩
  · intro data ikey okey inputs outputs hi ho
    refine ⟨?_, List.length_zip inputs outputs⟩
    simp only [encode_tuning_data, _convert_dict, hi, ho]
  · intro data ikey okey hi
    simp only [encode_tuning_data, _convert_dict, hi]
  · intro data ikey okey inputs hi ho
    simp only [encode_tuning_data, _convert_dict, hi, ho]

/-- Witness for C8: the general clauses evaluated on concrete mappings —
columns of unequal length for the truncation clause, a mapping missing the
input column, and a mapping with only the input column (missing output
column) for the two `KeyError` clauses. -/
theorem claim_c8_witness :
    (encode_tuning_data (.mapping [("text_input", ["a", "b", "c"]), ("output", ["x", "y"])])
      "text_input" "output" = .ok [("a", "x"), ("b", "y")] ∧
     ([("a" : String), "b", "c"].zip [("x" : String), "y"]).length = min 3 2) ∧
    encode_tuning_data (.mapping [("output", ["x", "y"])]) "text_input" "output" =
      .error "input_key is \"text_input\", but data has keys: [\x27output\x27]" ∧
    encode_tuning_data (.mapping [("text_input", ["a", "b"])]) "text_input" "output" =
      .error "output_key is \"output\", but data has keys: [\x27text_input\x27]" := by
  obtain ⟨w1, w2, w3, w4⟩ := claim_c8_mapping_encoding
  refine ⟨?_, ?_, ?_⟩
  · have h2 := w2 [("text_input", ["a", "b", "c"]), ("output", ["x", "y"])]
      "text_input" "output" ["a", "b", "c"] ["x", "y"] (by decide) (by decide)
    exact ⟨h2.1, h2.2⟩
  · exact w3 [("output", ["x", "y"])] "text_input" "output" (by decide)
  · exact w4 [("text_input", ["a", "b"])] "text_input" "output" ["a", "b"]
      (by decide) (by decide)

/-- C9.  For every Google-Sheets URL lacking a parseable `/d/<id>` segment,
`_normalize_url` does raise `ValueError` — but its message is the constant
literal `"Incomplete Google Sheets URL: {data}"` for every such URL: the
source string has no `f` prefix (and no variable named `data` is in scope),
so the message never contains the original raw URL, contrary to the
claim. -/
theorem claim_c9_error_message_is_constant (url : String)
    (hbase : "https://docs.google.com/spreadsheets".data.isPrefixOf url.data = true)
    (hid : sheetsIdMatch url = Option.none) :
    _normalize_url url = .error "Incomplete Google Sheets URL: \x7bdata\x7d" := by
  unfold _normalize_url
  rw [hid]
  simp [hbase]

/-- Witness for C9 at a concrete truncated spreadsheets URL; the 44-character
URL cannot occur in the 37-character constant message. -/
theorem claim_c9_witness :
    _normalize_url "https://docs.google.com/spreadsheets/no-d-here" =
      .error "Incomplete Google Sheets URL: \x7bdata\x7d" :=
  claim_c9_error_message_is_constant "https://docs.google.com/spreadsheets/no-d-here"
    (by decide) (by decide)

/-- C10.  Constructing a `Chunk` whose `data` argument is neither a `str`
nor a dict (here: an already-canonical `ChunkData`) never assigns the
`data` attribute: whenever such a construction succeeds, the chunk's `data`
is unassigned, and both `to_dict` and `_apply_update` on the allow-listed
path `data.string_value` fail with an `AttributeError` instead of
preserving the payload. -/
theorem claim_c10_chunkdata_never_assigned (name : String) (cd : ChunkData)
    (cm : Option (List CustomMetadata)) (st : ChunkStateInput)
    (ct ut : ChunkTimeInput) (c : Chunk)
    (h : Chunk.init name (.chunkData cd) cm st ct ut = .ok c) :
    c.data = Option.none ∧
    (∃ e, Chunk.to_dict c = .error e) ∧
    (∃ e, Chunk.applyUpdate c "data.string_value" "v" = .error e) := by
  unfold Chunk.init at h
  cases hst : to_state st with
  | none => simp [hst] at h
  | some s =>
  simp only [hst] at h
  have hdata : c.data = Option.none := by
    split at h
    · exact absurd h (by simp)
    · split at h
      · exact absurd h (by simp)
      · simp only [Except.ok.injEq] at h
        rw [← h]
  refine ⟨hdata, ?_, ?_⟩
  · exact ⟨"AttributeError: \x27Chunk\x27 object has no attribute \x27data\x27", by
      unfold Chunk.to_dict
      rw [hdata]⟩
  · exact ⟨"AttributeError: \x27Chunk\x27 object has no attribute \x27data\x27", by
      unfold Chunk.applyUpdate
      rw [if_pos rfl, hdata]⟩

/-- Witness for C10: a concrete construction from a canonical `ChunkData`
succeeds yet loses the payload. -/
theorem claim_c10_witness :
    ∃ c, Chunk.init "c1" (.chunkData { string_value := "hello" }) Option.none
        (.str "ACTIVE") .none .none = .ok c ∧
      c.data = Option.none ∧
      (∃ e, Chunk.to_dict c = .error e) ∧
      (∃ e, Chunk.applyUpdate c "data.string_value" "v" = .error e) := by
  refine ⟨{ name := "c1", data := Option.none, custom_metadata := [],
            state := .STATE_ACTIVE }, by decide, ?_⟩
  exact claim_c10_chunkdata_never_assigned "c1" { string_value := "hello" }
    Option.none (.str "ACTIVE") .none .none _ (by decide)
